import Mathlib

/-!
Shallow embedding of `display_monitor.py` (system monitor for an RK3588
board driving an ST7789 display).  The program has a sampler thread
(`update_metrics_loop` refreshing the global `metrics_data` once per
second via `get_metrics`) and a render loop (`main`) that measures each
line's pixel width and draws it centered or auto-scrolled.

Python values are modelled as follows: floats and pixel widths become
`ℚ` (every float is a rational, and the claims concern exact integer
scenarios), machine strings become `String`, fallible calls become
`Except PyErr`, and each external collaborator (socket calls, file
reads, psutil counters, the clock) is an explicit input describing its
outcome for the cycle under consideration.
-/

/-- Exception kinds that the Python code can raise or catch.  Only the
kinds the program distinguishes are modelled. -/
inductive PyErr where
  | typeError
  | unboundLocalError
  | valueError
  | permissionError
  | osError
deriving Repr, DecidableEq

/-- Outcome of `open(path).read()` for one thermal-zone file: the file
content on success, `FileNotFoundError`, or some other exception (for
example `PermissionError`) which `get_thermal_zone` does not catch. -/
inductive ReadResult where
  | ok (content : String)
  | fileNotFound
  | otherError (e : PyErr)
deriving Repr, DecidableEq

/-- One entry of the `metrics_data` list: a Python dict with keys
`text`, `size_x`, `font_height`, `pos_x` (`get_metrics` initialises the
three numeric fields to `0`). -/
structure MetricEntry where
  text : String
  size_x : ℚ
  font_height : ℚ
  pos_x : ℚ
deriving Repr, DecidableEq

/-- `disp.width` of the ST7789 constructor call: the viewport width in
pixels. -/
def disp_width : ℚ := 320

/-- Python `a % b` on floats: the remainder with the sign of the
divisor, `a - b * floor (a / b)`. -/
def pymod (a b : ℚ) : ℚ := a - b * ⌊a / b⌋

/-- Python `int(q)` on a float: truncation toward zero. -/
def pytrunc (q : ℚ) : ℤ := if 0 ≤ q then ⌊q⌋ else ⌈q⌉

/-- `scroll_offset = (time.time() - start_time) * 10` in `main`,
as a function of the elapsed time in seconds. -/
def scroll_offset (elapsed_sec : ℚ) : ℚ := elapsed_sec * 10

/-- The per-line horizontal layout of `main` (lines 167-173): when the
measured width exceeds `disp.width` the line scrolls,
`x = -int(scroll_offset % (width + disp.width))`; otherwise it is
centered, `x = (disp.width - width) // 2` (Python floor division). -/
def line_pos_x (width : ℚ) (scroll : ℚ) : ℚ :=
  if disp_width < width then
    -((pytrunc (pymod scroll (width + disp_width)) : ℤ) : ℚ)
  else
    ((⌊(disp_width - width) / 2⌋ : ℤ) : ℚ)

/-- `font_height = 22` in `main`. -/
def font_height : ℤ := 22

/-- `line_padding = 2` in `main`. -/
def line_padding : ℤ := 2

/-- `line_height = font_height + line_padding` in `main`. -/
def line_height : ℤ := font_height + line_padding

/-- The width-measurement pass of `main` (lines 155-156): for every
entry of `metrics_data`, `entry["size_x"] = draw.textlength(text, font)`
is written back into the shared entry dict in place.  The result is the
content of the shared list after the pass, with `measure` the
text-measurement collaborator. -/
def measure_pass (measure : String → ℚ) (snapshot : List MetricEntry) : List MetricEntry :=
  snapshot.map (fun e => ⟨e.text, measure e.text, e.font_height, e.pos_x⟩)

/-- The drawing pass of `main` (lines 162-176): starting from `y = 0`,
each entry is drawn at `(line_pos_x, y)` and `y` advances by
`line_height`.  Returns the list of draw positions in draw order. -/
def draw_lines (scroll : ℚ) : List MetricEntry → ℤ → List (ℚ × ℤ)
  | [], _ => []
  | e :: rest, y => (line_pos_x e.size_x scroll, y) :: draw_lines scroll rest (y + line_height)

/-- One full frame of the render loop: measure every line's width, then
compute all draw positions starting at the top of the screen. -/
def render_frame (measure : String → ℚ) (scroll : ℚ) (snapshot : List MetricEntry) : List (ℚ × ℤ) :=
  draw_lines scroll (measure_pass measure snapshot) 0

/-- Outcome of the socket calls made by `get_ip_address`: socket
creation itself raises, `connect` raises, `getsockname` raises, or the
lookup succeeds with the local endpoint address.  `close` is assumed
not to raise on a bound socket. -/
inductive SockEnv where
  | createRaises
  | connectRaises
  | getsocknameRaises
  | ok (ip : String)
deriving Repr, DecidableEq

/-- `get_ip_address` (lines 56-69).  The `try` body creates a UDP
socket, connects it to 8.8.8.8:80 and reads `getsockname()[0]`;
`except Exception` substitutes "127.0.0.1"; `finally` runs
`sock.close()`.  When socket creation itself raised, the local `sock`
is unbound, so the `finally` clause raises `UnboundLocalError`, which
propagates out of the function. -/
def get_ip_address : SockEnv → Except PyErr String
  | .ok ip => .ok ip
  | .connectRaises => .ok "127.0.0.1"
  | .getsocknameRaises => .ok "127.0.0.1"
  | .createRaises => .error .unboundLocalError

/-- Value of a nonempty all-digit character list read in base 10. -/
def digitsVal (cs : List Char) : ℕ :=
  cs.foldl (fun acc c => acc * 10 + (c.toNat - 48)) 0

/-- Parse a nonempty run of decimal digits. -/
def parseNatDigits (cs : List Char) : Option ℕ :=
  if cs ≠ [] ∧ cs.all Char.isDigit then some (digitsVal cs) else none

/-- Python `int(s)` on an already-stripped string: optional sign then
decimal digits; `none` models the `ValueError` raised otherwise.
(Digit-group underscores, which never occur in thermal-zone files, are
not modelled.) -/
def pyParseInt (s : String) : Option ℤ :=
  match s.data with
  | '-' :: rest => (parseNatDigits rest).map (fun n => -(n : ℤ))
  | '+' :: rest => (parseNatDigits rest).map (fun n => (n : ℤ))
  | cs => (parseNatDigits cs).map (fun n => (n : ℤ))

/-- Python `str.strip()`: remove leading and trailing whitespace. -/
def pyStrip (s : String) : String :=
  String.mk (((s.data.dropWhile Char.isWhitespace).reverse.dropWhile Char.isWhitespace).reverse)

/-- `get_thermal_zone` (lines 72-81): read the file, strip, parse as
int, divide by 1000.0.  `except (FileNotFoundError, ValueError)`
returns `None` (modelled `none`); any other exception propagates. -/
def get_thermal_zone : ReadResult → Except PyErr (Option ℚ)
  | .ok c =>
      match pyParseInt (pyStrip c) with
      | some n => .ok (some ((n : ℚ) / 1000))
      | none => .ok none
  | .fileNotFound => .ok none
  | .otherError e => .error e

/-- Python `f"{q:.1f}"` for an exact rational: round to the nearest
tenth and print one decimal digit. -/
def formatFix1 (q : ℚ) : String :=
  let n : ℤ := round (q * 10)
  (if n < 0 then "-" else "")
    ++ toString (n.natAbs / 10) ++ "." ++ toString (n.natAbs % 10)

/-- Python `f"{v:.1f}"` applied to a value that may be `None`: CPython
raises `TypeError` ("unsupported format string passed to
NoneType.__format__") when `v` is `None`. -/
def formatFix1Opt (v : Option ℚ) : Except PyErr String :=
  match v with
  | none => .error .typeError
  | some q => .ok (formatFix1 q)

/-- `f"{uuid.getnode():012X}"`: uppercase hexadecimal, zero-padded to
at least 12 characters. -/
def raw_mac (node : ℕ) : String :=
  let ds := (Nat.toDigits 16 node).map Char.toUpper
  String.mk (List.replicate (12 - ds.length) '0' ++ ds)

/-- The character pairs `raw_mac[i : i + 2]` for `i in range(0, 12, 2)`. -/
def chunk2 : List Char → List String
  | a :: b :: rest => String.mk [a, b] :: chunk2 rest
  | [a] => [String.mk [a]]
  | [] => []

/-- `":".join(raw_mac[i : i + 2] for i in range(0, 12, 2))`. -/
def mac_string (node : ℕ) : String :=
  String.intercalate ":" (chunk2 ((raw_mac node).data.take 12))

/-- Outcomes of every external collaborator `get_metrics` consults in
one sampling cycle. -/
structure MetricsEnv where
  sock : SockEnv
  node_id : ℕ
  now_str : String
  cpu_zone : ReadResult
  hotspot_zone : ReadResult
  cpu_load : ℚ
  mem_used : ℚ
  mem_total : ℚ

/-- `get_metrics` (lines 84-115): gather IP, MAC, date/time, the CPU
and Hotspot temperatures, CPU load and memory use, and build the six
metric-entry dicts with `size_x`, `font_height`, `pos_x` initialised to
0.  Any exception raised by a step propagates (there is no try/except
in this function). -/
def get_metrics (env : MetricsEnv) : Except PyErr (List MetricEntry) := do
  let ip ← get_ip_address env.sock
  let mac := mac_string env.node_id
  let dt := env.now_str
  let cpu_t ← get_thermal_zone env.cpu_zone
  let hs_t ← get_thermal_zone env.hotspot_zone
  let cpuStr ← formatFix1Opt cpu_t
  let hsStr ← formatFix1Opt hs_t
  let mem_used_mb := env.mem_used / (1024 ^ 2)
  let mem_tot_mb := env.mem_total / (1024 ^ 2)
  pure [
    ⟨"IPv4: " ++ ip, 0, 0, 0⟩,
    ⟨"MAC: " ++ mac, 0, 0, 0⟩,
    ⟨dt, 0, 0, 0⟩,
    ⟨"CPU/Hotspot: " ++ cpuStr ++ "/" ++ hsStr ++ "°C", 0, 0, 0⟩,
    ⟨"CPU Load: " ++ formatFix1 env.cpu_load ++ "%", 0, 0, 0⟩,
    ⟨"RAM: " ++ formatFix1 mem_used_mb ++ "/" ++ formatFix1 mem_tot_mb ++ " MB", 0, 0, 0⟩]

/-- Initial value of the module-level global `metrics_data` (line 51):
the empty list, i.e. a snapshot with zero lines. -/
def metrics_data_init : List MetricEntry := []

/-- The sampler's publish step: the assignment
`metrics_data = get_metrics()` replaces the shared list as a whole. -/
def publish (s : List MetricEntry) (_store : List MetricEntry) : List MetricEntry := s

/-- The renderer's read of the shared global `metrics_data`. -/
def current (store : List MetricEntry) : List MetricEntry := store

/-- One iteration of `update_metrics_loop` (lines 118-125): call
`get_metrics` and assign the result to `metrics_data`.  The loop body
has no exception handler, so an exception from `get_metrics` escapes
and the thread terminates with it. -/
def update_metrics_step (env : MetricsEnv) (store : List MetricEntry) :
    Except PyErr (List MetricEntry) :=
  match get_metrics env with
  | .ok m => .ok (publish m store)
  | .error e => .error e

/-- A sampling cycle in which the CPU thermal-zone file is missing and
every other collaborator behaves normally. -/
def env_thermal_missing : MetricsEnv :=
  { sock := .ok "192.168.1.20"
    node_id := 0
    now_str := "12.03.2024 10:00:00"
    cpu_zone := .fileNotFound
    hotspot_zone := .ok "45000\n"
    cpu_load := 7 / 2
    mem_used := 536870912
    mem_total := 1073741824 }

/-- Default entry used with `List.getD` in index statements. -/
def entry0 : MetricEntry := ⟨"", 0, 0, 0⟩

/-- A one-entry published snapshot used as a concrete example. -/
def sample_snapshot : List MetricEntry := [⟨"abc", 5, 0, 0⟩]

-- ── Helper lemmas ──────────────────────────────────────────────────────

theorem pymod_nonneg (a b : ℚ) (hb : 0 < b) : 0 ≤ pymod a b := by
  unfold pymod
  have h : ((⌊a / b⌋ : ℤ) : ℚ) ≤ a / b := Int.floor_le _
  have h2 : ((⌊a / b⌋ : ℤ) : ℚ) * b ≤ a := (le_div_iff₀ hb).mp h
  have h3 : b * ((⌊a / b⌋ : ℤ) : ℚ) = ((⌊a / b⌋ : ℤ) : ℚ) * b := mul_comm _ _
  linarith

theorem pymod_add_self (a b : ℚ) (hb : b ≠ 0) : pymod (a + b) b = pymod a b := by
  unfold pymod
  have h : (a + b) / b = a / b + 1 := by field_simp
  rw [h, Int.floor_add_one]
  push_cast
  ring

theorem pytrunc_of_nonneg (q : ℚ) (h : 0 ≤ q) : pytrunc q = ⌊q⌋ := by
  simp [pytrunc, h]

-- ── Claim theorems ─────────────────────────────────────────────────────

/-- C3: for a line wider than the viewport, the drawn x-position is
minus the floor of `(elapsedMs / 100) mod (width + W)`; in particular
with width 500 the position is 0 at elapsed time 0 ms and -410 at
elapsed time 41000 ms (offset 410, period 820). -/
theorem scroll_branch_formula (w t : ℚ) (hw : disp_width < w) (ht : 0 ≤ t) :
    line_pos_x w (scroll_offset (t / 1000))
      = -((⌊pymod (t / 100) (w + disp_width)⌋ : ℤ) : ℚ)
    ∧ line_pos_x 500 (scroll_offset (0 / 1000)) = 0
    ∧ line_pos_x 500 (scroll_offset (41000 / 1000)) = -410 := by
  have hb : 0 < w + disp_width := by
    have : (0 : ℚ) < disp_width := by norm_num [disp_width]
    linarith
  have harg : scroll_offset (t / 1000) = t / 100 := by
    unfold scroll_offset; ring
  refine ⟨?_, ?_, ?_⟩
  · rw [line_pos_x, if_pos hw, harg,
      pytrunc_of_nonneg _ (pymod_nonneg (t / 100) (w + disp_width) hb)]
  · norm_num [line_pos_x, disp_width, scroll_offset, pymod, pytrunc]
  · norm_num [line_pos_x, disp_width, scroll_offset, pymod, pytrunc]

/-- Witness for C3 at width 500 and elapsed time 0. -/
theorem scroll_branch_formula_witness :
    (disp_width < (500 : ℚ) ∧ (0 : ℚ) ≤ 0)
    ∧ (line_pos_x 500 (scroll_offset ((0 : ℚ) / 1000))
        = -((⌊pymod ((0 : ℚ) / 100) (500 + disp_width)⌋ : ℤ) : ℚ)
      ∧ line_pos_x 500 (scroll_offset (0 / 1000)) = 0
      ∧ line_pos_x 500 (scroll_offset (41000 / 1000)) = -410) :=
  ⟨⟨by norm_num [disp_width], le_refl 0⟩,
    scroll_branch_formula 500 0 (by norm_num [disp_width]) (le_refl 0)⟩

/-- C4: for a line not wider than the viewport, the x-position is the
floor of `(W - width) / 2`, independent of elapsed time; for width 180
it is 70. -/
theorem centered_branch_formula (w t₁ t₂ : ℚ) (hw : w ≤ disp_width) :
    line_pos_x w (scroll_offset t₁) = ((⌊(disp_width - w) / 2⌋ : ℤ) : ℚ)
    ∧ line_pos_x w (scroll_offset t₁) = line_pos_x w (scroll_offset t₂)
    ∧ line_pos_x 180 (scroll_offset t₁) = 70 := by
  have hn : ¬ disp_width < w := not_lt.mpr hw
  refine ⟨?_, ?_, ?_⟩
  · rw [line_pos_x, if_neg hn]
  · rw [line_pos_x, if_neg hn, line_pos_x, if_neg hn]
  · have h180 : ¬ disp_width < (180 : ℚ) := by norm_num [disp_width]
    rw [line_pos_x, if_neg h180]
    have : (disp_width - 180) / 2 = ((70 : ℤ) : ℚ) := by norm_num [disp_width]
    rw [this, Int.floor_intCast]
    norm_num

/-- Witness for C4 at width 180 and elapsed times 0 and 5 seconds. -/
theorem centered_branch_formula_witness :
    ((180 : ℚ) ≤ disp_width)
    ∧ (line_pos_x 180 (scroll_offset 0) = ((⌊(disp_width - 180) / 2⌋ : ℤ) : ℚ)
      ∧ line_pos_x 180 (scroll_offset 0) = line_pos_x 180 (scroll_offset 5)
      ∧ line_pos_x 180 (scroll_offset 0) = 70) :=
  ⟨by norm_num [disp_width],
    centered_branch_formula 180 0 5 (by norm_num [disp_width])⟩

/-- C5: for a line wider than the viewport, the x-position is periodic
in elapsed time with period `width + W` offset units, i.e.
`100 * (width + W)` milliseconds. -/
theorem scroll_branch_periodic (w t : ℚ) (hw : disp_width < w) :
    line_pos_x w (scroll_offset ((t + 100 * (w + disp_width)) / 1000))
      = line_pos_x w (scroll_offset (t / 1000)) := by
  have hb : 0 < w + disp_width := by
    have : (0 : ℚ) < disp_width := by norm_num [disp_width]
    linarith
  have harg : scroll_offset ((t + 100 * (w + disp_width)) / 1000)
      = scroll_offset (t / 1000) + (w + disp_width) := by
    unfold scroll_offset; ring
  rw [line_pos_x, if_pos hw, line_pos_x, if_pos hw, harg,
    pymod_add_self _ _ (ne_of_gt hb)]

/-- Witness for C5 at width 500 and elapsed time 0 ms. -/
theorem scroll_branch_periodic_witness :
    (disp_width < (500 : ℚ))
    ∧ line_pos_x 500 (scroll_offset (((0 : ℚ) + 100 * (500 + disp_width)) / 1000))
      = line_pos_x 500 (scroll_offset ((0 : ℚ) / 1000)) :=
  ⟨by norm_num [disp_width],
    scroll_branch_periodic 500 0 (by norm_num [disp_width])⟩

/-- C6: a line whose measured width equals the viewport width exactly
takes the centered branch and is drawn at x = 0, for every elapsed
time. -/
theorem width_eq_viewport_centered (t : ℚ) :
    line_pos_x disp_width (scroll_offset t) = 0 := by
  rw [line_pos_x, if_neg (lt_irrefl disp_width)]
  norm_num

theorem draw_lines_map_snd (scroll : ℚ) (es : List MetricEntry) (y : ℤ) :
    (draw_lines scroll es y).map Prod.snd
      = (List.range es.length).map (fun (i : ℕ) => y + (i : ℤ) * line_height) := by
  induction es generalizing y with
  | nil => simp [draw_lines]
  | cons e rest ih =>
    rw [draw_lines, List.map_cons, ih, List.length_cons,
      List.range_succ_eq_map, List.map_cons, List.map_map]
    congr 1
    · simp
    · apply List.map_congr_left
      intro i _
      simp only [Function.comp_apply]
      push_cast
      ring

/-- C1: the sampling cycle is NOT fault-tolerant per metric: when the
CPU thermal-zone file is missing, `get_thermal_zone` returns `None`,
formatting it with `:.1f` raises `TypeError`, no snapshot is published,
and the exception escapes the loop body of `update_metrics_loop`,
terminating the sampler thread. -/
theorem sampler_crash_on_missing_thermal :
    update_metrics_step env_thermal_missing metrics_data_init
      = Except.error PyErr.typeError := by rfl

/-- C2: `get_ip_address` falls back to "127.0.0.1" when `connect` or
`getsockname` raises, but when socket creation itself raises, the
`finally` clause evaluates `sock.close()` with `sock` unbound and an
`UnboundLocalError` propagates out of the function instead of the
loopback fallback. -/
theorem ip_fallback_and_create_failure :
    get_ip_address SockEnv.createRaises = Except.error PyErr.unboundLocalError
    ∧ get_ip_address SockEnv.connectRaises = Except.ok "127.0.0.1"
    ∧ get_ip_address SockEnv.getsocknameRaises = Except.ok "127.0.0.1" :=
  ⟨rfl, rfl, rfl⟩

/-- C7: reading the shared store after `publish s` returns exactly `s`,
and before the first publish the store holds the well-defined empty
snapshot with zero lines. -/
theorem store_publish_current (s store : List MetricEntry) :
    current (publish s store) = s
    ∧ current metrics_data_init = []
    ∧ (current metrics_data_init).length = 0 :=
  ⟨rfl, rfl, rfl⟩

/-- C8 counterexample: the renderer's per-frame measurement pass DOES
store the measured width back into the shared snapshot's entries: after
one pass the published entry differs from its published value (its
`size_x` changed from 0 to the measured 180). -/
theorem snapshot_mutated_by_measure_pass :
    measure_pass (fun _ => (180 : ℚ)) [⟨"IPv4: 127.0.0.1", 0, 0, 0⟩]
      ≠ [⟨"IPv4: 127.0.0.1", 0, 0, 0⟩] := by
  decide

/-- C8 amended: the measurement pass overwrites each shared entry's
`size_x` in place with the fresh measurement of its `text` (never a
value persisted from a prior frame), and leaves `text`, `font_height`
and `pos_x` unchanged; the list length is unchanged. -/
theorem measure_pass_fields (measure : String → ℚ) (snapshot : List MetricEntry)
    (i : ℕ) (h : i < snapshot.length) :
    (measure_pass measure snapshot).length = snapshot.length
    ∧ ((measure_pass measure snapshot).getD i entry0).text
        = (snapshot.getD i entry0).text
    ∧ ((measure_pass measure snapshot).getD i entry0).size_x
        = measure ((snapshot.getD i entry0).text)
    ∧ ((measure_pass measure snapshot).getD i entry0).font_height
        = (snapshot.getD i entry0).font_height
    ∧ ((measure_pass measure snapshot).getD i entry0).pos_x
        = (snapshot.getD i entry0).pos_x := by
  have he : snapshot[i]? = some snapshot[i] := List.getElem?_eq_getElem h
  refine ⟨by simp [measure_pass], ?_, ?_, ?_, ?_⟩ <;>
    simp [measure_pass, List.getD_eq_getElem?_getD, List.getElem?_map, he]

/-- Witness for C8's amended theorem on a concrete one-entry snapshot. -/
theorem measure_pass_fields_witness :
    0 < sample_snapshot.length
    ∧ ((measure_pass (fun _ => (180 : ℚ)) sample_snapshot).length = sample_snapshot.length
    ∧ ((measure_pass (fun _ => (180 : ℚ)) sample_snapshot).getD 0 entry0).text
        = (sample_snapshot.getD 0 entry0).text
    ∧ ((measure_pass (fun _ => (180 : ℚ)) sample_snapshot).getD 0 entry0).size_x = 180
    ∧ ((measure_pass (fun _ => (180 : ℚ)) sample_snapshot).getD 0 entry0).font_height
        = (sample_snapshot.getD 0 entry0).font_height
    ∧ ((measure_pass (fun _ => (180 : ℚ)) sample_snapshot).getD 0 entry0).pos_x
        = (sample_snapshot.getD 0 entry0).pos_x) :=
  ⟨by decide, measure_pass_fields (fun _ => (180 : ℚ)) sample_snapshot 0 (by decide)⟩

/-- C9: in every rendered frame the lines are drawn top-to-bottom in
snapshot order: the sequence of y-positions is exactly
`0, line_height, 2 * line_height, ...`, i.e. the i-th line is drawn at
`y = i * (font_height + line_padding)`. -/
theorem vertical_stacking (measure : String → ℚ) (scroll : ℚ)
    (snapshot : List MetricEntry) :
    (render_frame measure scroll snapshot).map Prod.snd
      = (List.range snapshot.length).map (fun (i : ℕ) => (i : ℤ) * line_height) := by
  rw [render_frame, draw_lines_map_snd]
  have hlen : (measure_pass measure snapshot).length = snapshot.length := by
    simp [measure_pass]
  rw [hlen]
  apply List.map_congr_left
  intro i _
  ring

/-- C10: `get_thermal_zone` returns the parsed millidegree value
divided by 1000 when the file exists and its stripped content parses as
an integer; it returns `none` exactly when the file is missing or the
content fails to parse; any other exception propagates uncaught. -/
theorem thermal_read_cases :
    (∀ c n, pyParseInt (pyStrip c) = some n →
      get_thermal_zone (ReadResult.ok c) = Except.ok (some ((n : ℚ) / 1000)))
    ∧ get_thermal_zone ReadResult.fileNotFound = Except.ok none
    ∧ (∀ c, pyParseInt (pyStrip c) = none →
      get_thermal_zone (ReadResult.ok c) = Except.ok none)
    ∧ (∀ e, get_thermal_zone (ReadResult.otherError e) = Except.error e)
    ∧ (∀ r, get_thermal_zone r = Except.ok none ↔
        r = ReadResult.fileNotFound
        ∨ ∃ c, r = ReadResult.ok c ∧ pyParseInt (pyStrip c) = none) := by
  refine ⟨?_, rfl, ?_, fun e => rfl, ?_⟩
  · intro c n h
    simp [get_thermal_zone, h]
  · intro c h
    simp [get_thermal_zone, h]
  · intro r
    cases r with
    | ok c =>
      cases hp : pyParseInt (pyStrip c) with
      | none => simp [get_thermal_zone, hp]
      | some n => simp [get_thermal_zone, hp]
    | fileNotFound => simp [get_thermal_zone]
    | otherError e => simp [get_thermal_zone]

/-- Witness for C10 on the content " 45000\n", which strips and parses
to 45000 millidegrees, i.e. 45 degrees Celsius. -/
theorem thermal_read_cases_witness :
    get_thermal_zone (ReadResult.ok " 45000\n")
      = Except.ok (some ((45000 : ℚ) / 1000)) :=
  thermal_read_cases.1 " 45000\n" 45000 (by decide)
